import Mathlib

/-!
Shallow embedding of the baseball-catcher game core
(src/game/objects/sprite.js, src/game/characters/ball.js,
src/game/characters/player.js, src/game/main.js,
src/game/helpers/utils.js), with theorems settling the frozen claims
about movement clamping, the ball's launch protocol, collision
detection, the computer-opponent policy, scoring, and the win-state
machine.

Numbers are modelled as rationals (ℚ): the JavaScript source only ever
performs field arithmetic and comparisons on them on the paths the
claims cover.  The one place where a NaN arises (`parseInt` applied to
the whole settings object in the computer-opponent branch of
`Game.play`) is modelled explicitly with a `JVal` type whose
comparisons with NaN are false, exactly as in IEEE/JS semantics.
-/

/-- The `direction` field of a sprite: the string values `'left'` /
`'right'` from sprite.js. -/
inductive Dir where
  | left
  | right
deriving Repr, DecidableEq

/-- Bounds rectangle `{top, right, bottom, left}` (sprite.js, setBounds). -/
structure Bounds where
  top : ℚ
  right : ℚ
  bottom : ℚ
  left : ℚ
deriving Repr, DecidableEq

/-- State of a `Sprite` (sprite.js constructor): position, previous
position, center, velocity, size, radius, speed, direction, bounds. -/
structure Sprite where
  x : ℚ
  y : ℚ
  px : ℚ
  py : ℚ
  cx : ℚ
  cy : ℚ
  vx : ℚ
  vy : ℚ
  width : ℚ
  height : ℚ
  radius : ℚ
  speed : ℚ
  direction : Dir
  bounds : Bounds
deriving Repr, DecidableEq

namespace Sprite

/-- The `Sprite` constructor (sprite.js lines 17-50).  `speed0` models
the `speed || 1` default (0 is falsy in JS), `direction0` models
`direction || 'right'`.  Note the source really initializes the
previous y `py` to `x` (line 24: `this.py = x;`), which this embedding
reproduces. -/
def mk' (x y width height speed0 : ℚ) (direction0 : Option Dir) (bounds : Bounds) : Sprite :=
  { x := x
    y := y
    px := x
    py := x
    cx := x + width / 2
    cy := y + height / 2
    vx := 0
    vy := 0
    width := width
    height := height
    radius := (width + height) / 4
    speed := if speed0 = 0 then 1 else speed0
    direction := direction0.getD Dir.right
    bounds := bounds }

/-- `Sprite.setX` (sprite.js lines 79-85): store previous x, set x,
recompute center x and velocity x. -/
def setX (s : Sprite) (x : ℚ) : Sprite :=
  { s with
    px := s.x
    x := x
    cx := x + s.width / 2
    vx := x - s.x }

/-- `Sprite.setY` (sprite.js lines 87-93): store previous y, set y,
recompute center y and velocity y. -/
def setY (s : Sprite) (y : ℚ) : Sprite :=
  { s with
    py := s.y
    y := y
    cy := y + s.height / 2
    vy := y - s.y }

/-- The candidate x of `Sprite.move` (sprite.js line 53):
`x === 0 ? this.x : this.x + (x * this.speed * m)`. -/
def candX (s : Sprite) (ax m : ℚ) : ℚ :=
  if ax = 0 then s.x else s.x + ax * s.speed * m

/-- The candidate y of `Sprite.move` (sprite.js line 54). -/
def candY (s : Sprite) (ay m : ℚ) : ℚ :=
  if ay = 0 then s.y else s.y + ay * s.speed * m

/-- The "apply x bounds" section of `Sprite.move` (sprite.js lines
56-63): keep an in-bounds candidate, otherwise snap to the near edge,
in both cases through `setX`. -/
def applyBoundsX (s : Sprite) (dx : ℚ) : Sprite :=
  if dx ≥ s.bounds.left ∧ dx ≤ s.bounds.right - s.width then
    s.setX dx
  else
    s.setX (if dx < s.bounds.left then s.bounds.left else s.bounds.right - s.width)

/-- The "apply y bounds" section of `Sprite.move` (sprite.js lines
65-72). -/
def applyBoundsY (s : Sprite) (dy : ℚ) : Sprite :=
  if dy ≥ s.bounds.top ∧ dy ≤ s.bounds.bottom - s.height then
    s.setY dy
  else
    s.setY (if dy < s.bounds.top then s.bounds.top else s.bounds.bottom - s.height)

/-- The "set direction" section of `Sprite.move` (sprite.js lines
74-76): two consecutive `if`s on the sign of the commanded x axis. -/
def applyDirection (s : Sprite) (ax : ℚ) : Sprite :=
  let s3 := if ax < 0 then { s with direction := Dir.right } else s
  if ax > 0 then { s3 with direction := Dir.left } else s3

/-- `Sprite.move(x, y, m)` (sprite.js lines 52-77): compute both
candidate positions from the pre-move state, clamp each axis into its
bounds (snapping out-of-range candidates to an edge), then update
`direction` from the sign of the commanded x axis.  (`setX` leaves
`y`, `speed`, `bounds` and `height` untouched, so computing `candY` and
the y-bounds test from the pre-move state matches the source exactly.) -/
def move (s : Sprite) (ax ay m : ℚ) : Sprite :=
  applyDirection (applyBoundsY (applyBoundsX s (s.candX ax m)) (s.candY ay m)) ax

end Sprite

/-- State of a `Ball` (ball.js constructor): a sprite plus horizontal
direction `dx`, vertical direction `dy` and the `launched` flag.  The
`Ball` class extends `ImageSprite`, which is not part of the provided
sources; per the spec's data model (`Ball` extends `Entity` and only
rendering is added along the way) the image layer adds no state or
behavior relevant here, so `Ball` is embedded directly over `Sprite`. -/
structure Ball where
  s : Sprite
  dx : ℚ
  dy : ℚ
  launched : Bool
deriving Repr, DecidableEq

namespace Ball

/-- The `Ball` constructor (ball.js lines 17-24): build the underlying
sprite, then set `dx = -1`, `dy = 0` (the `dy = -1` initializer is
commented out in the source), `launched = false`. -/
def mk' (x y width height speed0 : ℚ) (direction0 : Option Dir) (bounds : Bounds) : Ball :=
  { s := Sprite.mk' x y width height speed0 direction0 bounds
    dx := -1
    dy := 0
    launched := false }

/-- `Ball.move(m)` (ball.js lines 26-30): no-op unless launched,
otherwise delegate to `Sprite.move` with the ball's own directions. -/
def move (b : Ball) (m : ℚ) : Ball :=
  if b.launched then { b with s := b.s.move b.dx b.dy m } else b

/-- `Ball.stop()` (ball.js lines 49-52): clear `launched` and zero the
horizontal direction; everything else untouched. -/
def stop (b : Ball) : Ball :=
  { b with launched := false, dx := 0 }

/-- The body that `Ball.launch` runs either immediately or when its
timer fires (ball.js lines 37-41 and 42-46): set `launched`, add the
captured `totalOffset` to `x` **directly** (not through `setX`, so the
center/velocity caches are not recomputed), and set `dx`. -/
def launchFire (b : Ball) (totalOffset dxv : ℚ) : Ball :=
  { b with
    launched := true
    s := { b.s with x := b.s.x + totalOffset }
    dx := dxv }

/-- `Ball.launch(delay, dx, offset)` with no/zero delay (ball.js lines
32-47, `else` branch): compute `totalOffset = (offset + width) * dx`,
stop, then fire immediately. -/
def launch (b : Ball) (dxv offset : ℚ) : Ball :=
  let totalOffset := (offset + b.s.width) * dxv
  (b.stop).launchFire totalOffset dxv

end Ball

/-- A pending deferred launch: the `totalOffset` and `dx` that
`Ball.launch` captures synchronously when called with a truthy delay
(ball.js line 33); the timer body applies them via `launchFire`. -/
structure PendingLaunch where
  totalOffset : ℚ
  dxv : ℚ
deriving Repr, DecidableEq

namespace Ball

/-- `Ball.launch(delay, dx, offset)` with a truthy delay (ball.js lines
36-41): the synchronous part is just `stop()`; the deferred timer body
is `launchFire` with the captured offset and direction. -/
def launchDelayed (b : Ball) (dxv offset : ℚ) : Ball × PendingLaunch :=
  let totalOffset := (offset + b.s.width) * dxv
  (b.stop, ⟨totalOffset, dxv⟩)

/-- `Ball.collidesWith(entity)` (ball.js lines 61-66): vertical overlap
of the ball's center with the entity's span, and horizontal
center-distance below half the combined widths. -/
def collidesWith (b : Ball) (e : Sprite) : Bool :=
  let distanceX := |e.cx - b.s.cx|
  let onY := b.s.cy > e.y ∧ b.s.cy < e.y + e.height
  decide (onY ∧ distanceX < (e.width + b.s.width) / 2)

/-- `Ball.setY` is inherited from `Sprite` (used by `Game.play` and
`Game.relaunchBall`). -/
def setY (b : Ball) (y : ℚ) : Ball :=
  { b with s := b.s.setY y }

end Ball

/-- State of a `Player` (player.js): a sprite plus a name and a score.
`ctx` and `color` are rendering collaborators with no behavior. -/
structure Player where
  s : Sprite
  name : String
  score : ℕ
deriving Repr, DecidableEq

/-- `Ball.collisionsWith(entities)` (ball.js lines 54-59):
`entities.find(ent => this.collidesWith(ent))` — the first entity in
list order that the ball collides with, or none. -/
def Ball.collisionsWith (b : Ball) (entities : List Player) : Option Player :=
  entities.find? (fun ent => b.collidesWith ent.s)

/-- `boundBy(n, upper, lower)` (utils.js lines 762-767) on rationals:
clamp below by `lower`, then above by `upper`. -/
def boundBy (n upper lower : ℚ) : ℚ :=
  let n1 := if n < lower then lower else n
  if n1 > upper then upper else n1

/-- A JavaScript number that may be NaN.  Comparisons involving NaN are
false, as in JS; arithmetic with NaN yields NaN. -/
inductive JVal where
  | num (q : ℚ)
  | nan
deriving Repr, DecidableEq

namespace JVal

/-- JS `<` on possibly-NaN numbers: false whenever either side is NaN. -/
def lt : JVal → JVal → Bool
  | num a, num b => decide (a < b)
  | _, _ => false

/-- JS unary minus: `-NaN` is NaN. -/
def neg : JVal → JVal
  | num a => num (-a)
  | nan => nan

/-- JS division by a plain number: NaN propagates. -/
def divNum : JVal → ℚ → JVal
  | num a, q => num (a / q)
  | nan, _ => nan

end JVal

/-- `boundBy(n, upper, lower)` (utils.js lines 762-767) on JS numbers:
`n < lower ? lower : n`, then `n > upper ? upper : n`, with NaN
comparisons false. -/
def boundByJ (n upper lower : JVal) : JVal :=
  let n1 := if JVal.lt n lower then lower else n
  if JVal.lt upper n1 then upper else n1

/-- Firing the timer body of a delayed launch. -/
def PendingLaunch.fire (p : PendingLaunch) (b : Ball) : Ball :=
  b.launchFire p.totalOffset p.dxv

/-- The game phase, i.e. the values taken by `state.current` in
main.js (`'loading'`, `'ready'`, `'play'`, `'win-player1'`,
`'win-player2'`). -/
inductive GPhase where
  | loading
  | ready
  | play
  | winPlayer1
  | winPlayer2
deriving Repr, DecidableEq

/-- The game-state record of main.js (`this.state`), restricted to the
fields the claims touch: `current`, `prev` (initially null), `paused`,
`muted`, and the `winScore` merged in by `load`. -/
structure GState where
  current : GPhase
  prev : Option GPhase
  paused : Bool
  muted : Bool
  winScore : ℕ
deriving Repr, DecidableEq

/-- `Game.setState({ current })` (main.js lines 699-705): merge the new
`current` over the old state, recording the prior `current` as `prev`. -/
def GState.setCurrent (g : GState) (c : GPhase) : GState :=
  { g with prev := some g.current, current := c }

/-- The winner check at the top of the play branch of `Game.play`
(main.js lines 304-310): two consecutive `if`s, player1's first; each
fires when that player's score equals `winScore`.  This code runs only
when `current = play` (the enclosing guard at line 295). -/
def winCheck (g : GState) (score1 score2 : ℕ) : GState :=
  let g1 := if score1 = g.winScore then g.setCurrent GPhase.winPlayer1 else g
  if score2 = g1.winScore then g1.setCurrent GPhase.winPlayer2 else g1

/-- `parseInt(this.config.settings)` (main.js line 352): `parseInt`
applied to the whole settings *object*, whose string form is
`"[object Object]"`, so the result is NaN. -/
def parseIntOfSettingsObject : JVal := JVal.nan

/-- The computer-opponent command in `Game.play` (main.js lines
344-356): `diffY = ball.y/2 - player2.y`, `dy2 = diffY/(ball.x*2)`,
`speedLimit = parseInt(settings)/2` (NaN, see
`parseIntOfSettingsObject`), then `boundBy(dy2, speedLimit,
-speedLimit)`, the result being passed as the y-axis of
`player2.move`. -/
def computerCommand (ballY paddleY ballX : ℚ) : JVal :=
  let diffY := ballY / 2 - paddleY
  let dy2 := diffY / (ballX * 2)
  let difficulty := parseIntOfSettingsObject
  let speedLimit := difficulty.divNum 2
  boundByJ (JVal.num dy2) speedLimit speedLimit.neg

/-- Modelled from the spec: the computer-opponent command as §4.5 of
the spec words it — the same target formula, but clamped symmetrically
to `±(difficultySetting/2)` where `difficultySetting` is the configured
difficulty value.  Used only to compare the spec's claim against
`computerCommand`, the embedding of the source. -/
def specComputerCommand (ballY paddleY ballX difficulty : ℚ) : ℚ :=
  let dy2 := (ballY / 2 - paddleY) / (ballX * 2)
  boundBy dy2 (difficulty / 2) (-(difficulty / 2))

/-- The vertical bounce in `Game.play` (main.js lines 369-370): when
the ball's y sits exactly on the top edge or on `bottom - height`,
negate `dy`. -/
def bounceStep (screenTop screenBottom : ℚ) (b : Ball) : Ball :=
  if b.s.y = screenTop ∨ b.s.y = screenBottom - b.s.height then
    { b with dy := -b.dy }
  else b

/-- Result of the left-bound scoring block: the mutated ball and
players, the deferred launch timer if one was scheduled, and whether
the 1-second session-reset timer was scheduled. -/
structure LeftCross where
  ball : Ball
  player1 : Player
  player2 : Player
  pendingLaunch : Option PendingLaunch
  pendingReset : Bool
deriving Repr, DecidableEq

/-- The left-bound scoring block of `Game.play` (main.js lines
406-429): if the ball is launched and `x ≤ bounds.left`, give
`player2` one point (the inline comment says "give player1 one point"),
reset the ball speed to the configured base, then either stop the ball
(second human active) or set its y to player2's and launch it with a
3-second delay, direction `1`, offset `player2.width`; finally schedule
a session reset after 1 second. -/
def leftCrossStep (ball : Ball) (player1 player2 : Player) (input2active : Bool)
    (base : ℚ) : LeftCross :=
  if ball.launched ∧ ball.s.x ≤ ball.s.bounds.left then
    let player2' := { player2 with score := player2.score + 1 }
    let ball1 : Ball := { ball with s := { ball.s with speed := base } }
    if input2active then
      { ball := ball1.stop
        player1 := player1
        player2 := player2'
        pendingLaunch := none
        pendingReset := true }
    else
      let fired := (ball1.setY player2'.s.y).launchDelayed 1 player2'.s.width
      { ball := fired.1
        player1 := player1
        player2 := player2'
        pendingLaunch := some fired.2
        pendingReset := true }
  else
    { ball := ball
      player1 := player1
      player2 := player2
      pendingLaunch := none
      pendingReset := false }

/-! ## Helper lemmas shared by the claim theorems -/

namespace Sprite

theorem setX_x (s : Sprite) (a : ℚ) : (s.setX a).x = a := rfl

theorem setX_y (s : Sprite) (a : ℚ) : (s.setX a).y = s.y := rfl

theorem setY_x (s : Sprite) (a : ℚ) : (s.setY a).x = s.x := rfl

theorem setY_y (s : Sprite) (a : ℚ) : (s.setY a).y = a := rfl

theorem setX_cx (s : Sprite) (a : ℚ) : (s.setX a).cx = a + s.width / 2 := rfl

theorem setY_cy (s : Sprite) (a : ℚ) : (s.setY a).cy = a + s.height / 2 := rfl

theorem applyBoundsX_bounds (s : Sprite) (dx : ℚ) :
    (s.applyBoundsX dx).bounds = s.bounds := by
  unfold applyBoundsX; split <;> rfl

theorem applyBoundsX_dims (s : Sprite) (dx : ℚ) :
    (s.applyBoundsX dx).width = s.width ∧ (s.applyBoundsX dx).height = s.height := by
  unfold applyBoundsX; split <;> exact ⟨rfl, rfl⟩

theorem applyBoundsX_y (s : Sprite) (dx : ℚ) : (s.applyBoundsX dx).y = s.y := by
  unfold applyBoundsX; split <;> rfl

theorem applyBoundsY_x (s : Sprite) (dy : ℚ) : (s.applyBoundsY dy).x = s.x := by
  unfold applyBoundsY; split <;> rfl

theorem applyBoundsY_cx (s : Sprite) (dy : ℚ) : (s.applyBoundsY dy).cx = s.cx := by
  unfold applyBoundsY; split <;> rfl

theorem applyBoundsX_cy (s : Sprite) (dx : ℚ) : (s.applyBoundsX dx).cy = s.cy := by
  unfold applyBoundsX; split <;> rfl

theorem applyDirection_x (s : Sprite) (ax : ℚ) : (s.applyDirection ax).x = s.x := by
  unfold applyDirection; split <;> (try split) <;> rfl

theorem applyDirection_y (s : Sprite) (ax : ℚ) : (s.applyDirection ax).y = s.y := by
  unfold applyDirection; split <;> (try split) <;> rfl

theorem applyDirection_cx (s : Sprite) (ax : ℚ) : (s.applyDirection ax).cx = s.cx := by
  unfold applyDirection; split <;> (try split) <;> rfl

theorem applyDirection_cy (s : Sprite) (ax : ℚ) : (s.applyDirection ax).cy = s.cy := by
  unfold applyDirection; split <;> (try split) <;> rfl

/-- The x written by the x-bounds section is the three-way clamp of the
candidate. -/
theorem applyBoundsX_x (s : Sprite) (dx : ℚ) :
    (s.applyBoundsX dx).x =
      if dx < s.bounds.left then s.bounds.left
      else if dx > s.bounds.right - s.width then s.bounds.right - s.width
      else dx := by
  unfold applyBoundsX
  by_cases h1 : dx ≥ s.bounds.left ∧ dx ≤ s.bounds.right - s.width
  · rw [if_pos h1, setX_x, if_neg (by linarith [h1.1]), if_neg (by linarith [h1.2])]
  · rw [if_neg h1, setX_x]
    by_cases h2 : dx < s.bounds.left
    · rw [if_pos h2, if_pos h2]
    · rw [if_neg h2, if_neg h2, if_pos (by push_neg at h1 h2; linarith [h1 h2])]

/-- The y written by the y-bounds section is the three-way clamp of the
candidate. -/
theorem applyBoundsY_y (s : Sprite) (dy : ℚ) :
    (s.applyBoundsY dy).y =
      if dy < s.bounds.top then s.bounds.top
      else if dy > s.bounds.bottom - s.height then s.bounds.bottom - s.height
      else dy := by
  unfold applyBoundsY
  by_cases h1 : dy ≥ s.bounds.top ∧ dy ≤ s.bounds.bottom - s.height
  · rw [if_pos h1, setY_y, if_neg (by linarith [h1.1]), if_neg (by linarith [h1.2])]
  · rw [if_neg h1, setY_y]
    by_cases h2 : dy < s.bounds.top
    · rw [if_pos h2, if_pos h2]
    · rw [if_neg h2, if_neg h2, if_pos (by push_neg at h1 h2; linarith [h1 h2])]

/-- The x coordinate produced by `Sprite.move` is the three-way clamp
of the candidate position. -/
theorem move_x_spec (s : Sprite) (ax ay m : ℚ) :
    (s.move ax ay m).x =
      if s.candX ax m < s.bounds.left then s.bounds.left
      else if s.candX ax m > s.bounds.right - s.width then s.bounds.right - s.width
      else s.candX ax m := by
  unfold move
  rw [applyDirection_x, applyBoundsY_x, applyBoundsX_x]

/-- The y coordinate produced by `Sprite.move` is the three-way clamp
of the candidate position (the bounds and height the y section reads
are unchanged by the x section). -/
theorem move_y_spec (s : Sprite) (ax ay m : ℚ) :
    (s.move ax ay m).y =
      if s.candY ay m < s.bounds.top then s.bounds.top
      else if s.candY ay m > s.bounds.bottom - s.height then s.bounds.bottom - s.height
      else s.candY ay m := by
  unfold move
  rw [applyDirection_y, applyBoundsY_y, applyBoundsX_bounds,
    (applyBoundsX_dims s (s.candX ax m)).2]

theorem applyBoundsY_width (s : Sprite) (dy : ℚ) :
    (s.applyBoundsY dy).width = s.width := by
  unfold applyBoundsY; split <;> rfl

theorem applyBoundsY_height (s : Sprite) (dy : ℚ) :
    (s.applyBoundsY dy).height = s.height := by
  unfold applyBoundsY; split <;> rfl

theorem applyDirection_width (s : Sprite) (ax : ℚ) :
    (s.applyDirection ax).width = s.width := by
  unfold applyDirection; split <;> (try split) <;> rfl

theorem applyDirection_height (s : Sprite) (ax : ℚ) :
    (s.applyDirection ax).height = s.height := by
  unfold applyDirection; split <;> (try split) <;> rfl

/-- After the x-bounds section the center-x cache is coherent with the
new x (both were written by `setX`). -/
theorem applyBoundsX_cx_coherent (s : Sprite) (dx : ℚ) :
    (s.applyBoundsX dx).cx = (s.applyBoundsX dx).x + s.width / 2 := by
  unfold applyBoundsX; split <;> rfl

/-- After the y-bounds section the center-y cache is coherent with the
new y (both were written by `setY`). -/
theorem applyBoundsY_cy_coherent (s : Sprite) (dy : ℚ) :
    (s.applyBoundsY dy).cy = (s.applyBoundsY dy).y + s.height / 2 := by
  unfold applyBoundsY; split <;> rfl

/-- `Sprite.move` maps direction to right on a negative x axis, left on
a positive one, and keeps it otherwise. -/
theorem move_direction_spec (s : Sprite) (ax ay m : ℚ) :
    (s.move ax ay m).direction =
      if ax < 0 then Dir.right
      else if ax > 0 then Dir.left
      else s.direction := by
  have hyb : ∀ (t : Sprite) (dy : ℚ), (t.applyBoundsY dy).direction = t.direction := by
    intro t dy; unfold applyBoundsY; split <;> rfl
  have hxb : ∀ (t : Sprite) (dx : ℚ), (t.applyBoundsX dx).direction = t.direction := by
    intro t dx; unfold applyBoundsX; split <;> rfl
  unfold move applyDirection
  by_cases hneg : ax < 0 <;> by_cases hpos : ax > 0
  · linarith
  · simp [hneg, hpos]
  · simp [hneg, hpos]
  · simp [hneg, hpos, hyb, hxb]

end Sprite

/-! ## Concrete entities used in counterexamples and witnesses -/

/-- A sprite wider than its bounds: width 10 but only 5 units between
`left` and `right` (bounds are top 0, right 5, bottom 100, left 0). -/
def wideSprite : Sprite :=
  Sprite.mk' 0 0 10 10 1 none ⟨0, 5, 100, 0⟩

/-- A paddle-like sprite from the spec's end-to-end scenario 1: y
100, height 50, speed 10, bounds top 0 / bottom 200 (and a 20-wide
body inside x-bounds 0..400). -/
def paddleW : Sprite :=
  Sprite.mk' 0 100 20 50 10 none ⟨0, 400, 200, 0⟩

/-! ## Claim theorems -/

/-- **C1** (amended).  Provided the entity fits inside its bounds
(`width ≤ right - left` and `height ≤ bottom - top`), after any `move`
its x lies in `[bounds.left, bounds.right - width]` and its y in
`[bounds.top, bounds.bottom - height]`, and an out-of-range candidate
position snaps to the nearest edge on that axis rather than being
rejected.  (Without the fit hypotheses the snap target itself lies
outside the then-empty interval; see `move_bounds_counterexample`.) -/
theorem move_clamps_to_bounds (s : Sprite) (ax ay m : ℚ)
    (hw : s.width ≤ s.bounds.right - s.bounds.left)
    (hh : s.height ≤ s.bounds.bottom - s.bounds.top) :
    (s.bounds.left ≤ (s.move ax ay m).x ∧
      (s.move ax ay m).x ≤ s.bounds.right - s.width) ∧
    (s.bounds.top ≤ (s.move ax ay m).y ∧
      (s.move ax ay m).y ≤ s.bounds.bottom - s.height) ∧
    (s.candX ax m < s.bounds.left → (s.move ax ay m).x = s.bounds.left) ∧
    (s.candX ax m > s.bounds.right - s.width →
      (s.move ax ay m).x = s.bounds.right - s.width) ∧
    (s.candY ay m < s.bounds.top → (s.move ax ay m).y = s.bounds.top) ∧
    (s.candY ay m > s.bounds.bottom - s.height →
      (s.move ax ay m).y = s.bounds.bottom - s.height) := by
  rw [Sprite.move_x_spec, Sprite.move_y_spec]
  refine ⟨?_, ?_, ?_, ?_, ?_, ?_⟩
  · split_ifs <;> constructor <;> linarith
  · split_ifs <;> constructor <;> linarith
  · intro h; rw [if_pos h]
  · intro h; rw [if_neg (by linarith), if_pos h]
  · intro h; rw [if_pos h]
  · intro h; rw [if_neg (by linarith), if_pos h]

/-- Witness for `move_clamps_to_bounds`: scenario 1's paddle, commanded
up past the top edge, ends clamped inside its vertical interval. -/
theorem move_clamps_to_bounds_witness :
    (paddleW.width ≤ paddleW.bounds.right - paddleW.bounds.left) ∧
    (paddleW.height ≤ paddleW.bounds.bottom - paddleW.bounds.top) ∧
    (paddleW.bounds.top ≤ (paddleW.move 0 (-20) 1).y ∧
      (paddleW.move 0 (-20) 1).y ≤ paddleW.bounds.bottom - paddleW.height) :=
  ⟨by with_unfolding_all decide, by with_unfolding_all decide,
    (move_clamps_to_bounds paddleW 0 (-20) 1 (by with_unfolding_all decide) (by with_unfolding_all decide)).2.1⟩

/-- **C1** counterexample: for `wideSprite` (width 10, x-bounds of
extent 5) the claim's interval `[left, right - width]` is `[0, -5]`,
and after `move 1 0 1` the x is the snap target `-5`, not in the
interval — so the claim does not hold for *every* entity. -/
theorem move_bounds_counterexample :
    ¬ (wideSprite.bounds.left ≤ (wideSprite.move 1 0 1).x ∧
       (wideSprite.move 1 0 1).x ≤ wideSprite.bounds.right - wideSprite.width) := by
  with_unfolding_all decide

/-- **C10.** After every `move(axisX, axisY, scale)`: direction is
`right` when the commanded x axis is negative, `left` when it is
positive, and unchanged when it is zero. -/
theorem move_direction_polarity (s : Sprite) (ax ay m : ℚ) :
    (s.move ax ay m).direction =
      if ax < 0 then Dir.right else if ax > 0 then Dir.left else s.direction :=
  Sprite.move_direction_spec s ax ay m

/-- A launched ball with `dy = 0`, sitting inside its vertical bounds
(y 40 in [0, 50 - 2]). -/
def tb5 : Ball :=
  { Ball.mk' 10 40 2 2 1 none ⟨0, 100, 50, 0⟩ with launched := true }

/-- The ball of the spec's end-to-end scenario 2, centered at
(400, 300) (x 395, y 295, width and height 10). -/
def tb6 : Ball :=
  Ball.mk' 395 295 10 10 1 none ⟨0, 800, 600, 0⟩

/-- The paddle of the spec's end-to-end scenario 2, width 20, height
100, centered at (400, 300). -/
def tp6 : Player :=
  ⟨Sprite.mk' 390 250 20 100 1 none ⟨0, 800, 600, 0⟩, "player1", 0⟩

/-- A freshly constructed (hence stopped) ball. -/
def tb7 : Ball :=
  Ball.mk' 5 6 2 2 3 none ⟨0, 100, 100, 0⟩

/-- A stopped ball used against the zero-direction launch claim. -/
def tb8 : Ball :=
  Ball.mk' 7 8 2 2 3 none ⟨0, 100, 100, 0⟩

/-- A ball at x 0 of width 2, so its center-x cache is 1. -/
def tb9 : Ball :=
  Ball.mk' 0 0 2 2 1 none ⟨0, 100, 100, 0⟩

/-- **C5.** The ball's `dy` is 0 at construction and every operation
that ever writes it (the edge-touch negation in the game loop) as well
as `stop`, `launch` and `move` preserves `dy = 0`; consequently a
launched `move` of a ball with `dy = 0` that sits inside its vertical
bounds leaves its y unchanged — the ball moves only horizontally. -/
theorem ball_dy_zero_invariant (b : Ball) (m : ℚ) (hdy : b.dy = 0)
    (hy : b.s.bounds.top ≤ b.s.y ∧ b.s.y ≤ b.s.bounds.bottom - b.s.height) :
    (∀ (x y w h sp : ℚ) (d : Option Dir) (bd : Bounds),
      (Ball.mk' x y w h sp d bd).dy = 0) ∧
    (∀ c : Ball, c.stop.dy = c.dy) ∧
    (∀ (c : Ball) (dxv off : ℚ), (c.launch dxv off).dy = c.dy) ∧
    (∀ (c : Ball) (mm : ℚ), (c.move mm).dy = c.dy) ∧
    (∀ (st sb : ℚ) (c : Ball), c.dy = 0 → (bounceStep st sb c).dy = 0) ∧
    (b.move m).s.y = b.s.y := by
  refine ⟨fun _ _ _ _ _ _ _ => rfl, fun _ => rfl, fun _ _ _ => rfl, ?_, ?_, ?_⟩
  · intro c mm
    unfold Ball.move; split <;> rfl
  · intro st sb c h
    unfold bounceStep; split
    · show -c.dy = 0
      rw [h, neg_zero]
    · exact h
  · by_cases hb : b.launched
    · show (if b.launched then { b with s := b.s.move b.dx b.dy m } else b).s.y = b.s.y
      rw [if_pos hb]
      show (b.s.move b.dx b.dy m).y = b.s.y
      rw [Sprite.move_y_spec, hdy]
      have hc : b.s.candY 0 m = b.s.y := if_pos rfl
      rw [hc, if_neg (by linarith [hy.1]), if_neg (by linarith [hy.2])]
    · show (if b.launched then { b with s := b.s.move b.dx b.dy m } else b).s.y = b.s.y
      rw [if_neg hb]

/-- Witness for `ball_dy_zero_invariant` at the concrete launched ball
`tb5`. -/
theorem ball_dy_zero_invariant_witness :
    tb5.dy = 0 ∧
    (tb5.s.bounds.top ≤ tb5.s.y ∧ tb5.s.y ≤ tb5.s.bounds.bottom - tb5.s.height) ∧
    (tb5.move 1).s.y = tb5.s.y :=
  ⟨by with_unfolding_all decide,
    ⟨by with_unfolding_all decide, by with_unfolding_all decide⟩,
    (ball_dy_zero_invariant tb5 1 (by with_unfolding_all decide)
      ⟨by with_unfolding_all decide, by with_unfolding_all decide⟩).2.2.2.2.2⟩

/-- **C6.** `collidesWith(paddle)` holds exactly when
`paddle.y < ball.centerY < paddle.y + paddle.height` and
`|paddle.centerX - ball.centerX| < (paddle.width + ball.width)/2`, and
`collisionsWith(list)` returns the first paddle in list order passing
that test, or none. -/
theorem collision_queries_spec (b : Ball) (p : Player) (ps : List Player) :
    (b.collidesWith p.s = true ↔
      (p.s.y < b.s.cy ∧ b.s.cy < p.s.y + p.s.height ∧
        |p.s.cx - b.s.cx| < (p.s.width + b.s.width) / 2)) ∧
    (b.collisionsWith [] = none) ∧
    (b.collisionsWith (p :: ps) =
      if b.collidesWith p.s then some p else b.collisionsWith ps) ∧
    (b.collisionsWith ps = none ↔ ∀ q ∈ ps, ¬ b.collidesWith q.s = true) := by
  refine ⟨?_, rfl, ?_, ?_⟩
  · unfold Ball.collidesWith
    rw [decide_eq_true_iff]
    constructor
    · rintro ⟨⟨h1, h2⟩, h3⟩; exact ⟨h1, h2, h3⟩
    · rintro ⟨h1, h2, h3⟩; exact ⟨⟨h1, h2⟩, h3⟩
  · by_cases h : b.collidesWith p.s
    · rw [if_pos h]
      exact List.find?_cons_of_pos _ h
    · rw [if_neg h]
      exact List.find?_cons_of_neg _ (by simpa using h)
  · unfold Ball.collisionsWith
    rw [List.find?_eq_none]

/-- Witness for `collision_queries_spec`: the spec's scenario-2 ball
and paddle, both centered at (400, 300), do collide, and the paddle is
what `collisionsWith` finds. -/
theorem collision_queries_spec_witness :
    tb6.collidesWith tp6.s = true :=
  (collision_queries_spec tb6 tp6 []).1.mpr
    ⟨by with_unfolding_all decide, by with_unfolding_all decide,
      by with_unfolding_all decide⟩

/-- **C7.** For every ball — launched or not — `stop()` clears
`launched` and zeroes `directionX` while leaving `directionY` and the
whole underlying sprite (position, previous position, velocity, speed,
direction, bounds) unchanged; and `move(scale)` on a ball whose
`launched` flag is false is the identity on the entire ball state. -/
theorem stop_fields_and_stopped_move_noop (b : Ball) (m : ℚ) :
    (b.stop.launched = false ∧ b.stop.dx = 0 ∧ b.stop.dy = b.dy ∧ b.stop.s = b.s) ∧
    (b.launched = false → b.move m = b) :=
  ⟨⟨rfl, rfl, rfl, rfl⟩, fun h => by simp [Ball.move, h]⟩

/-- Witness for `stop_fields_and_stopped_move_noop`: the stop-field
facts at the concrete *launched* ball `tb5`, and the move no-op with
its hypothesis discharged at the concrete stopped ball `tb7`. -/
theorem stop_fields_and_stopped_move_noop_witness :
    (tb5.launched = true ∧ tb5.stop.launched = false ∧ tb5.stop.dx = 0 ∧
      tb5.stop.dy = tb5.dy ∧ tb5.stop.s = tb5.s) ∧
    (tb7.launched = false ∧ tb7.move 4 = tb7) :=
  ⟨⟨rfl, (stop_fields_and_stopped_move_noop tb5 4).1.1,
      (stop_fields_and_stopped_move_noop tb5 4).1.2.1,
      (stop_fields_and_stopped_move_noop tb5 4).1.2.2.1,
      (stop_fields_and_stopped_move_noop tb5 4).1.2.2.2⟩,
    ⟨rfl, (stop_fields_and_stopped_move_noop tb7 4).2 rfl⟩⟩

/-- **C8** counterexample: launching the stopped ball `tb8` with
directionX 0 is *not* a no-op — `launched` flips from false to true,
so the ball enters a launched state with zero direction. -/
theorem launch_zero_counterexample :
    tb8.launched = false ∧ (tb8.launch 0 5).launched = true := by
  with_unfolding_all decide

/-- **C8** (amended).  `launch` has no guard and no warning for a zero
directionX: it sets `launched` to true and `directionX` to 0 with the
position unchanged (the jump offset is `(offset + width) * 0 = 0`),
i.e. the ball enters a silently stalled launched state. -/
theorem launch_zero_direction_stall (b : Ball) (off : ℚ) :
    (b.launch 0 off).launched = true ∧ (b.launch 0 off).dx = 0 ∧
    (b.launch 0 off).s.x = b.s.x ∧ (b.launch 0 off).s.y = b.s.y ∧
    (b.launch 0 off).dy = b.dy := by
  unfold Ball.launch Ball.launchFire Ball.stop
  refine ⟨rfl, rfl, ?_, rfl, rfl⟩
  show b.s.x + (off + b.s.width) * 0 = b.s.x
  rw [mul_zero, add_zero]

/-- **C9** counterexample: after `tb9.launch 1 3` (a position jump of
`(3 + 2) * 1 = 5`) the center-x cache still holds the old value 1,
not `x + width/2 = 6` — the launch jump does not recompute centers. -/
theorem center_recompute_counterexample :
    ¬ ((tb9.launch 1 3).s.cx =
        (tb9.launch 1 3).s.x + (tb9.launch 1 3).s.width / 2) := by
  with_unfolding_all decide

/-- **C9** (amended).  Every position change routed through
`setX`/`setY` — which includes both axes of `move` — recomputes the
centers, so `centerX = x + width/2` and `centerY = y + height/2` hold
after those operations; but the ball's launch position jump writes `x`
directly and leaves `centerX` as it was (stale whenever the jump is
nonzero). -/
theorem center_recompute_spec (s : Sprite) (a ax ay m : ℚ) (b : Ball)
    (dxv off : ℚ) :
    ((s.setX a).cx = (s.setX a).x + (s.setX a).width / 2) ∧
    ((s.setY a).cy = (s.setY a).y + (s.setY a).height / 2) ∧
    ((s.move ax ay m).cx = (s.move ax ay m).x + (s.move ax ay m).width / 2) ∧
    ((s.move ax ay m).cy = (s.move ax ay m).y + (s.move ax ay m).height / 2) ∧
    ((b.launch dxv off).s.cx = b.s.cx) ∧
    ((b.launch dxv off).s.x = b.s.x + (off + b.s.width) * dxv) := by
  refine ⟨rfl, rfl, ?_, ?_, rfl, rfl⟩
  · unfold Sprite.move
    rw [Sprite.applyDirection_cx, Sprite.applyDirection_x, Sprite.applyDirection_width,
      Sprite.applyBoundsY_cx, Sprite.applyBoundsY_x, Sprite.applyBoundsY_width,
      (Sprite.applyBoundsX_dims s (s.candX ax m)).1]
    exact Sprite.applyBoundsX_cx_coherent s (s.candX ax m)
  · unfold Sprite.move
    rw [Sprite.applyDirection_cy, Sprite.applyDirection_y, Sprite.applyDirection_height,
      Sprite.applyBoundsY_height]
    exact Sprite.applyBoundsY_cy_coherent (s.applyBoundsX (s.candX ax m)) (s.candY ay m)

/-- A play-state game at winScore 5 (prev ready, unpaused, unmuted). -/
def g3 : GState :=
  { current := GPhase.play
    prev := some GPhase.ready
    paused := false
    muted := false
    winScore := 5 }

/-- **C3** counterexample: in play state with winScore 5 and both
scores 5, the tick's winner check ends in `win-player2`, not
`win-player1` — the second `if` overwrites the first, so player2, not
player1, wins the tie-break. -/
theorem win_tiebreak_counterexample :
    g3.current = GPhase.play ∧ g3.winScore = 5 ∧
    (winCheck g3 5 5).current = GPhase.winPlayer2 ∧
    (winCheck g3 5 5).current ≠ GPhase.winPlayer1 := by
  with_unfolding_all decide

/-- **C3** (amended).  On any tick in state play, a paddle whose score
equals winScore moves the state to the corresponding win-* state on
that same tick, player1's condition being checked before player2's;
but because the two checks are consecutive `if`s, when both paddles
reach winScore on the same tick the second write wins and the
resulting state is `win-player2`. -/
theorem winCheck_same_tick (g : GState) (s1 s2 : ℕ)
    (hcur : g.current = GPhase.play) :
    (winCheck g s1 s2).current =
      if s2 = g.winScore then GPhase.winPlayer2
      else if s1 = g.winScore then GPhase.winPlayer1
      else GPhase.play := by
  unfold winCheck GState.setCurrent
  by_cases h1 : s1 = g.winScore <;> by_cases h2 : s2 = g.winScore <;>
    simp [h1, h2, hcur]

/-- Witness for `winCheck_same_tick`: with only player1 at the winScore
the same tick ends in `win-player1`. -/
theorem winCheck_same_tick_witness :
    (winCheck g3 5 0).current = GPhase.winPlayer1 := by
  have h := winCheck_same_tick g3 5 0 (by with_unfolding_all decide)
  simpa [g3] using h

/-- **C4** (code bug).  The commanded axis of the computer opponent is
always the raw `(ballY/2 - paddleY)/(ballX*2)`: the difficulty read is
`parseInt` of the whole settings object, i.e. NaN, NaN comparisons are
false, so `boundBy` never clamps.  At ball (1000, ·), paddle y 0, ball
x 1 and configured difficulty 2 the code commands 250 where the spec's
clamped policy commands 1. -/
theorem computer_command_not_clamped :
    (∀ ballY paddleY ballX : ℚ,
      computerCommand ballY paddleY ballX =
        JVal.num ((ballY / 2 - paddleY) / (ballX * 2))) ∧
    computerCommand 1000 0 1 = JVal.num 250 ∧
    specComputerCommand 1000 0 1 2 = 1 ∧
    (250 : ℚ) ≠ 1 := by
  refine ⟨fun _ _ _ => rfl, by with_unfolding_all decide,
    by with_unfolding_all decide, by with_unfolding_all decide⟩

/-- A launched ball past the left bound: x -12 ≤ bounds.left -10,
speed 9 (ball bounds as `create` builds them: left is screen-left minus
the ball width). -/
def cb2 : Ball :=
  { Ball.mk' (-12) 40 10 10 9 none ⟨0, 500, 300, -10⟩ with launched := true }

/-- The right-side paddle (player1, created at x = right - width). -/
def p1R : Player :=
  ⟨Sprite.mk' 480 100 20 60 50 none ⟨0, 500, 300, 0⟩, "player1", 0⟩

/-- The left-side paddle (player2, created at x = 0). -/
def p2L : Player :=
  ⟨Sprite.mk' 0 150 20 60 50 none ⟨0, 500, 300, 0⟩, "player2", 0⟩

/-- **C2** (code bug).  Evaluating the left-bound scoring block at a
failing input: the launched ball `cb2` has crossed `bounds.left`, no
second human is active, configured base speed 7.  The code increments
*player2's* (the left paddle's) score — player1's, the right paddle the
claim and the code's own comment name, stays 0 — resets the ball speed
to the base, and schedules the delayed relaunch from *player2's*
position (y set to player2's y; pending fire with offset
`(player2.width + ball.width) * 1 = 30` and direction 1, which sets
`launched` back to true), plus the 1-second session reset. -/
theorem left_cross_scores_left_paddle :
    (leftCrossStep cb2 p1R p2L false 7).player1.score = 0 ∧
    (leftCrossStep cb2 p1R p2L false 7).player2.score = 1 ∧
    (leftCrossStep cb2 p1R p2L false 7).ball.s.speed = 7 ∧
    (leftCrossStep cb2 p1R p2L false 7).ball.launched = false ∧
    (leftCrossStep cb2 p1R p2L false 7).ball.s.y = p2L.s.y ∧
    (leftCrossStep cb2 p1R p2L false 7).pendingLaunch = some ⟨30, 1⟩ ∧
    (PendingLaunch.fire ⟨30, 1⟩ (leftCrossStep cb2 p1R p2L false 7).ball).launched = true ∧
    (leftCrossStep cb2 p1R p2L false 7).pendingReset = true := by
  with_unfolding_all decide
